import Mathlib

/-!
Shallow embedding of the 3CX GUI backup client (src/cxgui/cxgui.py).

The client is a single class `cxgui` holding a normalized server domain, an
SSL flag, a User-Agent string generated once at construction, and a token
state (`_access_token`, `_refresh_token`, `_auth_token`).  Its operations
issue HTTP requests and dispatch on the responses.  Here the HTTP layer is
modelled by passing the response a call would observe as an explicit
argument; response bodies are modelled by the parsed JSON fields the code
reads.  Exceptions raised by the Python code are modelled with `Except`.
-/

namespace Cxgui

/-- Characters removed by Python str.strip (whitespace). -/
def pyIsSpace (c : Char) : Bool :=
  c = ' ' || c = '\t' || c = '\n' || c = '\r' || c = '\x0b' || c = '\x0c'

/-- Python str.strip: drop leading and trailing whitespace. -/
def pyStrip (s : String) : String :=
  String.mk (((s.data.dropWhile pyIsSpace).reverse.dropWhile pyIsSpace).reverse)

/-- Python str rendering of an optional token, as used by the f-string
f"Bearer {self._auth_token}": None renders as "None". -/
def pyShowOpt : Option String → String
  | none => "None"
  | some s => s

/-- A single quote character, used in the delete endpoint path. -/
def squote : String := String.singleton (Char.ofNat 39)

/-- Immutable per-client configuration: normalized domain, SSL flag and the
User-Agent generated once in the constructor. -/
structure Config where
  domain : String
  ssl : Bool
  userAgent : String
deriving DecidableEq

/-- The mutable token fields of the client. -/
structure TokenState where
  access_token : Option String
  refresh_token : Option String
  auth_token : Option String
deriving DecidableEq

/-- Token state right after construction: all fields None. -/
def TokenState.initial : TokenState := ⟨none, none, none⟩

/-- Domain normalization performed by the constructor:
domain = domain.strip(); if domain[-1] == slash, drop it.  Indexing
domain[-1] on an empty string raises IndexError, modelled as none. -/
def normalizeDomain (domain : String) : Option String :=
  let d := pyStrip domain
  match d.data.getLast? with
  | none => none
  | some c => some (if c = '/' then String.mk d.data.dropLast else d)

/-- cxgui._build_url: scheme from the SSL flag, then the domain, then a
slash unless the relative path already starts with one.  Indexing
relative_url[0] on an empty string raises IndexError, modelled as none. -/
def build_url (cfg : Config) (relative_url : String) : Option String :=
  match relative_url.data with
  | [] => none
  | c :: _ =>
    some ((if cfg.ssl then "https" else "http") ++ "://" ++ cfg.domain ++
      (if c = '/' then "" else "/") ++ relative_url)

/-- cxgui._build_headers: Accept and User-Agent always; when include_auth is
True, an Authorization header rendering the current auth token through an
f-string (None becomes the literal "Bearer None"). -/
def build_headers (cfg : Config) (auth_token : Option String) (include_auth : Bool) :
    List (String × String) :=
  let temp := [("Accept", "application/json"), ("User-Agent", cfg.userAgent)]
  if include_auth then temp ++ [("Authorization", "Bearer " ++ pyShowOpt auth_token)]
  else temp

/-- An HTTP request as issued by the client: method, URL and the headers the
client itself supplies (library-default headers are not modelled). -/
structure Request where
  method : String
  url : Option String
  headers : List (String × String)
deriving DecidableEq

/-- Parsed response of the primary login call, with the body fields the code
reads: Status, Token.token_type, Token.access_token, Token.refresh_token. -/
structure LoginResponse where
  statusCode : Nat
  Status : String
  token_type : String
  access_token : String
  refresh_token : String
deriving DecidableEq

/-- Parsed response of the secondary /connect/token exchange call.  The code
reads only the body field access_token and never inspects the status. -/
structure TokenResponse where
  statusCode : Nat
  access_token : String
deriving DecidableEq

/-- Errors raised by login; all three are authentication failures (the code
raises HttpError for the first and GUIError for the other two). -/
inductive AuthErr where
  | httpError (code : Nat)
  | statusError (s : String)
  | tokenTypeError (t : String)
deriving DecidableEq

/-- Result of a login run: the token state after the call, and either the
returned value True or the raised error. -/
structure LoginResult where
  state : TokenState
  outcome : Except AuthErr Bool

/-- cxgui.login response handling: require HTTP 200, body Status
"AuthSuccess" and token_type "Bearer", raising before any token assignment
otherwise; then store the primary tokens and set auth_token from the second
call body's access_token (the second call's status is never checked). -/
def login (st : TokenState) (primary : LoginResponse) (secondary : TokenResponse) :
    LoginResult :=
  if primary.statusCode = 200 then
    if primary.Status = "AuthSuccess" then
      if primary.token_type = "Bearer" then
        ⟨⟨some primary.access_token, some primary.refresh_token,
          some secondary.access_token⟩, Except.ok true⟩
      else ⟨st, Except.error (AuthErr.tokenTypeError primary.token_type)⟩
    else ⟨st, Except.error (AuthErr.statusError primary.Status)⟩
  else ⟨st, Except.error (AuthErr.httpError primary.statusCode)⟩

/-- Whether a login run raised (every raise in login is an auth error). -/
def LoginResult.raised : LoginResult → Bool
  | ⟨_, Except.error _⟩ => true
  | ⟨_, Except.ok _⟩ => false

/-- The request of the primary login call: POST, unauthenticated headers. -/
def loginRequest (cfg : Config) (st : TokenState) : Request :=
  ⟨"POST", build_url cfg "/webclient/api/Login/GetAccessToken",
    build_headers cfg st.auth_token false⟩

/-- The request of the secondary token-exchange call: POST, unauthenticated
headers. -/
def tokenExchangeRequest (cfg : Config) (st : TokenState) : Request :=
  ⟨"POST", build_url cfg "/connect/token", build_headers cfg st.auth_token false⟩

/-- One backup record as returned by the list endpoint (the four selected
fields). -/
structure BackupRecord where
  FileName : String
  CreationTime : String
  Size : Nat
  DownloadLink : String
deriving DecidableEq

/-- Parsed response of the backup list call: status and the body's value
array. -/
structure ListResponse where
  statusCode : Nat
  value : List BackupRecord
deriving DecidableEq

/-- Errors raised by the backup operations (HttpError in the code); the
trigger error message interpolates both the status code and the body text. -/
inductive BackupErr where
  | listStatus (code : Nat)
  | startStatus (code : Nat) (text : String)
  | deleteStatus (code : Nat)
deriving DecidableEq

/-- cxgui.backup_fetch_list response handling: require HTTP 200; with a
filename filter return only the records whose FileName equals it, otherwise
return all records. -/
def backup_fetch_list (resp : ListResponse) (fname_filter : Option String) :
    Except BackupErr (List BackupRecord) :=
  if resp.statusCode = 200 then
    match fname_filter with
    | some f => Except.ok (resp.value.filter (fun x => x.FileName == f))
    | none => Except.ok resp.value
  else Except.error (BackupErr.listStatus resp.statusCode)

/-- The request of the backup list call: GET with authenticated headers. -/
def backupListRequest (cfg : Config) (st : TokenState) : Request :=
  ⟨"GET", build_url cfg "/xapi/v1/Backups", build_headers cfg st.auth_token true⟩

/-- Filename selection in cxgui.backup_start: the caller-supplied name, or
CDRDump-(ISO date).zip when none is given. -/
def backup_start_filename (out_filename : Option String) (today : String) : String :=
  match out_filename with
  | none => "CDRDump-" ++ today ++ ".zip"
  | some f => f

/-- Parsed response of the backup trigger call: status, raw body text, and
the body field error.details[0].message read on the 400 path. -/
structure TriggerResponse where
  statusCode : Nat
  text : String
  errorDetailMessage : String
deriving DecidableEq

/-- cxgui.backup_start response handling: 200/204 succeed returning the
filename; a 400 whose error-detail message is WARNINGS.XAPI.DUPLICATE also
returns the filename; anything else raises with the status and body text. -/
def backup_start (out_filename : Option String) (today : String)
    (resp : TriggerResponse) : Except BackupErr String :=
  let filename := backup_start_filename out_filename today
  if resp.statusCode = 200 ∨ resp.statusCode = 204 then Except.ok filename
  else if resp.statusCode = 400 ∧ resp.errorDetailMessage = "WARNINGS.XAPI.DUPLICATE" then
    Except.ok filename
  else Except.error (BackupErr.startStatus resp.statusCode resp.text)

/-- The request of the backup trigger call: POST with authenticated
headers. -/
def backupStartRequest (cfg : Config) (st : TokenState) : Request :=
  ⟨"POST", build_url cfg "/xapi/v1/Backups/Pbx.Backup",
    build_headers cfg st.auth_token true⟩

/-- Streamed response of the download call: status and the chunk sequence
iter_content yields (each chunk a byte list; empty chunks are keep-alive
frames). -/
structure DownloadResponse where
  statusCode : Nat
  chunks : List (List Nat)
deriving DecidableEq

/-- requests Response.raise_for_status raises exactly for status codes in
400..599. -/
def raiseForStatus (code : Nat) : Bool :=
  decide (400 ≤ code) && decide (code < 600)

/-- The sequence of f.write calls the download loop performs: one write per
chunk, skipping falsy (empty) chunks. -/
def download_writes (chunks : List (List Nat)) : List (List Nat) :=
  chunks.foldl (fun acc chunk => if chunk = [] then acc else acc ++ [chunk]) []

/-- cxgui.backup_download: raise_for_status before opening the output file,
then write every non-empty chunk in order.  The result is the list of writes
performed; the file content is their concatenation. -/
def backup_download (resp : DownloadResponse) : Except Nat (List (List Nat)) :=
  if raiseForStatus resp.statusCode then Except.error resp.statusCode
  else Except.ok (download_writes resp.chunks)

/-- The request of the download call: plain requests.get with no headers
argument, so the client supplies no headers of its own. -/
def backupDownloadRequest (cfg : Config) (download_link : String) : Request :=
  ⟨"GET", build_url cfg download_link, []⟩

/-- cxgui.backup_delete response handling: only HTTP 204 succeeds; the token
state is never touched. -/
def backup_delete (st : TokenState) (statusCode : Nat) :
    TokenState × Except BackupErr Unit :=
  (st, if statusCode = 204 then Except.ok () else
    Except.error (BackupErr.deleteStatus statusCode))

/-- The request of the delete call: DELETE on the quoted-filename path with
authenticated headers. -/
def backupDeleteRequest (cfg : Config) (st : TokenState) (filename : String) : Request :=
  ⟨"DELETE",
    build_url cfg ("/xapi/v1/Backups(" ++ squote ++ filename ++ squote ++ ")"),
    build_headers cfg st.auth_token true⟩

/-! ## Theorems -/

/-- C1: login raises an authentication error if and only if the primary
login response deviates from the three success conditions HTTP 200, body
Status "AuthSuccess" and token type "Bearer"; every such raise happens
before any token assignment, so auth_token remains unset. -/
theorem login_auth_error_iff (st : TokenState) (primary : LoginResponse)
    (secondary : TokenResponse) (h : st.auth_token = none) :
    ((login st primary secondary).raised = true ↔
      ¬(primary.statusCode = 200 ∧ primary.Status = "AuthSuccess" ∧
        primary.token_type = "Bearer")) ∧
    ((login st primary secondary).raised = true →
      (login st primary secondary).state.auth_token = none) := by
  unfold login
  by_cases h1 : primary.statusCode = 200 <;>
    by_cases h2 : primary.Status = "AuthSuccess" <;>
      by_cases h3 : primary.token_type = "Bearer" <;>
        simp [h1, h2, h3, LoginResult.raised, h]

/-- Witness for C1 at a concrete 401 login response. -/
theorem login_auth_error_iff_witness :
    ((login TokenState.initial ⟨401, "AuthFail", "Bearer", "a", "r"⟩
        ⟨200, "b"⟩).raised = true ↔
      ¬((401 : Nat) = 200 ∧ "AuthFail" = "AuthSuccess" ∧ "Bearer" = "Bearer")) ∧
    ((login TokenState.initial ⟨401, "AuthFail", "Bearer", "a", "r"⟩
        ⟨200, "b"⟩).raised = true →
      (login TokenState.initial ⟨401, "AuthFail", "Bearer", "a", "r"⟩
        ⟨200, "b"⟩).state.auth_token = none) :=
  login_auth_error_iff TokenState.initial ⟨401, "AuthFail", "Bearer", "a", "r"⟩
    ⟨200, "b"⟩ rfl

/-- C3: a trigger whose response is HTTP 400 with error-detail message
WARNINGS.XAPI.DUPLICATE returns the same filename as a successful first
call, and any other non-200/204 response raises an error carrying the
server status and body text. -/
theorem backup_start_duplicate_idempotent (f today : String)
    (resp1 resp2 : TriggerResponse)
    (h1 : resp1.statusCode = 200)
    (h2 : resp2.statusCode = 400)
    (h3 : resp2.errorDetailMessage = "WARNINGS.XAPI.DUPLICATE") :
    backup_start (some f) today resp1 = Except.ok f ∧
    backup_start (some f) today resp2 = Except.ok f ∧
    ∀ resp : TriggerResponse, resp.statusCode ≠ 200 → resp.statusCode ≠ 204 →
      ¬(resp.statusCode = 400 ∧
          resp.errorDetailMessage = "WARNINGS.XAPI.DUPLICATE") →
      backup_start (some f) today resp =
        Except.error (BackupErr.startStatus resp.statusCode resp.text) := by
  refine ⟨?_, ?_, ?_⟩
  · simp [backup_start, backup_start_filename, h1]
  · simp [backup_start, backup_start_filename, h2, h3]
  · intro resp hr1 hr2 hr3
    simp [backup_start, backup_start_filename, hr1, hr2, hr3]

/-- Witness for C3 at a concrete duplicate-response pair. -/
theorem backup_start_duplicate_idempotent_witness :
    backup_start (some "b.zip") "2026-10-12" ⟨200, "ok", ""⟩ = Except.ok "b.zip" ∧
    backup_start (some "b.zip") "2026-10-12"
        ⟨400, "dup", "WARNINGS.XAPI.DUPLICATE"⟩ = Except.ok "b.zip" ∧
    ∀ resp : TriggerResponse, resp.statusCode ≠ 200 → resp.statusCode ≠ 204 →
      ¬(resp.statusCode = 400 ∧
          resp.errorDetailMessage = "WARNINGS.XAPI.DUPLICATE") →
      backup_start (some "b.zip") "2026-10-12" resp =
        Except.error (BackupErr.startStatus resp.statusCode resp.text) :=
  backup_start_duplicate_idempotent "b.zip" "2026-10-12" ⟨200, "ok", ""⟩
    ⟨400, "dup", "WARNINGS.XAPI.DUPLICATE"⟩ rfl rfl rfl

/-- C9: backup_delete issues a DELETE for the named backup, succeeds exactly
on HTTP 204, raises otherwise, and never changes the token state. -/
theorem backup_delete_spec (cfg : Config) (st : TokenState) (f : String)
    (s : Nat) :
    ((backup_delete st s).2 = Except.ok () ↔ s = 204) ∧
    (s ≠ 204 →
      (backup_delete st s).2 = Except.error (BackupErr.deleteStatus s)) ∧
    (backup_delete st s).1 = st ∧
    (backupDeleteRequest cfg st f).method = "DELETE" := by
  unfold backup_delete backupDeleteRequest
  by_cases hs : s = 204 <;> simp [hs]

/-- Witness for C9 at a concrete 204 and a concrete 500 response. -/
theorem backup_delete_spec_witness :
    (backup_delete TokenState.initial 204).2 = Except.ok () ∧
    (backup_delete TokenState.initial 500).2 =
      Except.error (BackupErr.deleteStatus 500) :=
  ⟨((backup_delete_spec ⟨"example.com", true, "ua0"⟩ TokenState.initial
      "f.zip" 204).1).mpr rfl,
    (backup_delete_spec ⟨"example.com", true, "ua0"⟩ TokenState.initial
      "f.zip" 500).2.1 (by decide)⟩

/-- C4: with a filename filter, backup_fetch_list returns exactly the
in-order sub-sequence of records whose FileName equals the filter: an
unmatched filter yields the empty list, a uniquely matched filter yields a
one-element list whose element bears the filter name, and without a filter
all fetched records are returned. -/
theorem backup_fetch_list_filter (resp : ListResponse) (f : String)
    (h : resp.statusCode = 200) :
    backup_fetch_list resp (some f) =
      Except.ok (resp.value.filter (fun x => x.FileName == f)) ∧
    (resp.value.filter (fun x => x.FileName == f)).Sublist resp.value ∧
    (∀ x ∈ resp.value.filter (fun x => x.FileName == f), x.FileName = f) ∧
    ((∀ x ∈ resp.value, x.FileName ≠ f) →
      backup_fetch_list resp (some f) = Except.ok []) ∧
    (resp.value.countP (fun x => x.FileName == f) = 1 →
      ∃ x, backup_fetch_list resp (some f) = Except.ok [x] ∧ x.FileName = f) ∧
    backup_fetch_list resp none = Except.ok resp.value := by
  refine ⟨by simp [backup_fetch_list, h], List.filter_sublist _, ?_, ?_, ?_,
    by simp [backup_fetch_list, h]⟩
  · intro x hx
    simpa using (List.mem_filter.mp hx).2
  · intro hnone
    have : resp.value.filter (fun x => x.FileName == f) = [] := by
      rw [List.filter_eq_nil_iff]
      intro a ha
      simpa using hnone a ha
    simp [backup_fetch_list, h, this]
  · intro hcount
    rw [List.countP_eq_length_filter] at hcount
    obtain ⟨x, hx⟩ := List.length_eq_one.mp hcount
    refine ⟨x, by simp [backup_fetch_list, h, hx], ?_⟩
    have hmem : x ∈ resp.value.filter (fun r => r.FileName == f) := by
      rw [hx]; exact List.mem_singleton_self x
    simpa using (List.mem_filter.mp hmem).2

/-- Witness for C4 at a concrete two-record list and filter. -/
theorem backup_fetch_list_filter_witness :
    backup_fetch_list ⟨200, [⟨"a.zip", "t1", 1, "d1"⟩, ⟨"b.zip", "t2", 2, "d2"⟩]⟩
        (some "b.zip") = Except.ok [⟨"b.zip", "t2", 2, "d2"⟩] ∧
    backup_fetch_list ⟨200, [⟨"a.zip", "t1", 1, "d1"⟩, ⟨"b.zip", "t2", 2, "d2"⟩]⟩
        none = Except.ok [⟨"a.zip", "t1", 1, "d1"⟩, ⟨"b.zip", "t2", 2, "d2"⟩] :=
  ⟨(backup_fetch_list_filter
      ⟨200, [⟨"a.zip", "t1", 1, "d1"⟩, ⟨"b.zip", "t2", 2, "d2"⟩]⟩ "b.zip" rfl).1,
    (backup_fetch_list_filter
      ⟨200, [⟨"a.zip", "t1", 1, "d1"⟩, ⟨"b.zip", "t2", 2, "d2"⟩]⟩ "b.zip"
      rfl).2.2.2.2.2⟩

/-- How build_url evaluates on a path whose first character is known. -/
theorem build_url_cons (cfg : Config) (s : String) (a : Char) (t : List Char)
    (hl : s.data = a :: t) :
    build_url cfg s = some ((if cfg.ssl then "https" else "http") ++ "://" ++
      cfg.domain ++ (if a = '/' then "" else "/") ++ s) := by
  unfold build_url
  rw [hl]

/-- C5: URL building joins the normalized host and a relative path with
exactly one slash whether or not the path starts with one: prefixing a
slash to a slashless path changes nothing, the joined form is
scheme://domain/path, the trailing domain slash is stripped by
normalization, and the scheme follows the SSL flag. -/
theorem build_url_single_slash (d ua : String) (ssl : Bool) (p : String)
    (c : Char) (hp : p.data.head? = some c) (hc : c ≠ '/') :
    build_url ⟨d, ssl, ua⟩ ("/" ++ p) = build_url ⟨d, ssl, ua⟩ p ∧
    build_url ⟨d, ssl, ua⟩ p =
      some ((if ssl then "https" else "http") ++ "://" ++ d ++ "/" ++ p) ∧
    normalizeDomain "example.com/" = some "example.com" ∧
    build_url ⟨"example.com", true, ua⟩ "/foo" = some "https://example.com/foo" ∧
    build_url ⟨"example.com", true, ua⟩ "foo" = some "https://example.com/foo" ∧
    build_url ⟨"example.com", false, ua⟩ "foo" = some "http://example.com/foo" := by
  cases hl : p.data with
  | nil => rw [hl] at hp; simp at hp
  | cons a t =>
    rw [hl] at hp
    simp only [List.head?_cons, Option.some.injEq] at hp
    subst hp
    have hdata : ("/" ++ p).data = '/' :: p.data := by
      rw [String.data_append]; rfl
    have e1 := build_url_cons ⟨d, ssl, ua⟩ ("/" ++ p) '/' p.data hdata
    have e2 := build_url_cons ⟨d, ssl, ua⟩ p a t hl
    refine ⟨?_, ?_, by rfl, by rfl, by rfl, by rfl⟩
    · rw [e1, e2]
      simp only [if_pos rfl, if_neg hc, Option.some.injEq]
      apply String.ext
      simp
    · rw [e2]
      simp [if_neg hc]

/-- Witness for C5 at the concrete path "foo". -/
theorem build_url_single_slash_witness :
    build_url ⟨"example.com", true, "ua0"⟩ ("/" ++ "foo") =
      build_url ⟨"example.com", true, "ua0"⟩ "foo" ∧
    build_url ⟨"example.com", true, "ua0"⟩ "foo" =
      some ((if true then "https" else "http") ++ "://" ++ "example.com" ++
        "/" ++ "foo") ∧
    normalizeDomain "example.com/" = some "example.com" ∧
    build_url ⟨"example.com", true, "ua0"⟩ "/foo" = some "https://example.com/foo" ∧
    build_url ⟨"example.com", true, "ua0"⟩ "foo" = some "https://example.com/foo" ∧
    build_url ⟨"example.com", false, "ua0"⟩ "foo" = some "http://example.com/foo" :=
  build_url_single_slash "example.com" "ua0" true "foo" 'f' rfl (by decide)

/-- The download write loop keeps exactly the non-empty chunks, in order. -/
theorem download_writes_foldl (chunks : List (List Nat)) (acc : List (List Nat)) :
    chunks.foldl (fun a chunk => if chunk = [] then a else a ++ [chunk]) acc =
      acc ++ chunks.filter (fun chunk => !decide (chunk = [])) := by
  induction chunks generalizing acc with
  | nil => simp
  | cons ch t ih =>
    by_cases hc : ch = [] <;> simp [hc, ih, List.filter_cons, List.append_assoc]

/-- C6 counterexample: a response with the non-2xx status 304 is not raised
on; the download proceeds and writes the non-empty chunks. -/
theorem backup_download_non2xx_counterexample :
    ¬(200 ≤ (304 : Nat) ∧ (304 : Nat) ≤ 299) ∧
    backup_download ⟨304, [[104], [], [105]]⟩ = Except.ok [[104], [105]] := by
  exact ⟨by decide, rfl⟩

/-- C6 (amended): download writes to the target exactly the non-empty
chunks of the body, in order (their concatenation being the file content),
and raises before writing exactly on statuses 400..599, the range
raise_for_status covers. -/
theorem backup_download_writes (resp : DownloadResponse) :
    (400 ≤ resp.statusCode ∧ resp.statusCode < 600 →
      backup_download resp = Except.error resp.statusCode) ∧
    (¬(400 ≤ resp.statusCode ∧ resp.statusCode < 600) →
      backup_download resp = Except.ok (download_writes resp.chunks)) ∧
    download_writes resp.chunks =
      resp.chunks.filter (fun chunk => !decide (chunk = [])) := by
  refine ⟨?_, ?_, ?_⟩
  · intro hr
    simp [backup_download, raiseForStatus, hr.1, hr.2]
  · intro hr
    have hb : raiseForStatus resp.statusCode = false := by
      simp [raiseForStatus]
      omega
    simp [backup_download, hb]
  · simpa using download_writes_foldl resp.chunks []

/-- Witness for C6 (amended) at a concrete 200 response and a concrete 404
response. -/
theorem backup_download_writes_witness :
    backup_download ⟨404, [[104]]⟩ = Except.error 404 ∧
    backup_download ⟨200, [[104], [], [105]]⟩ = Except.ok [[104], [105]] :=
  ⟨(backup_download_writes ⟨404, [[104]]⟩).1 (by decide),
    (backup_download_writes ⟨200, [[104], [], [105]]⟩).2.1 (by decide)⟩

/-- C7 counterexample: a run in which the exchange call returns the same
token as the primary call succeeds, and auth_token then equals the raw
login-response access token; a second run shows the empty exchange token is
accepted as well. -/
theorem login_tokens_distinct_counterexample :
    (login TokenState.initial ⟨200, "AuthSuccess", "Bearer", "tokA", "refA"⟩
        ⟨200, "tokA"⟩).outcome = Except.ok true ∧
    (login TokenState.initial ⟨200, "AuthSuccess", "Bearer", "tokA", "refA"⟩
        ⟨200, "tokA"⟩).state.auth_token = some "tokA" ∧
    (login TokenState.initial ⟨200, "AuthSuccess", "Bearer", "tokA", "refA"⟩
        ⟨200, "tokA"⟩).state.access_token = some "tokA" ∧
    (login TokenState.initial ⟨200, "AuthSuccess", "Bearer", "tokB", "refB"⟩
        ⟨200, ""⟩).state.auth_token = some "" :=
  ⟨rfl, rfl, rfl, rfl⟩

/-- C7 (amended): after a successful login, auth_token is exactly the
exchange call's access_token, the primary access token is stored
separately, and the Bearer credential attached to subsequent authenticated
requests is the exchange token; the two differ whenever the server returns
distinct tokens, which the client does not itself enforce. -/
theorem login_auth_token_from_exchange (cfg : Config) (st : TokenState)
    (primary : LoginResponse) (secondary : TokenResponse)
    (h1 : primary.statusCode = 200) (h2 : primary.Status = "AuthSuccess")
    (h3 : primary.token_type = "Bearer") :
    (login st primary secondary).outcome = Except.ok true ∧
    (login st primary secondary).state.auth_token =
      some secondary.access_token ∧
    (login st primary secondary).state.access_token =
      some primary.access_token ∧
    List.lookup "Authorization"
        (backupListRequest cfg (login st primary secondary).state).headers =
      some ("Bearer " ++ secondary.access_token) ∧
    (secondary.access_token ≠ primary.access_token →
      (login st primary secondary).state.auth_token ≠
        some primary.access_token) := by
  unfold login backupListRequest build_headers
  simp only [h1, h2, h3, if_pos rfl]
  refine ⟨rfl, rfl, rfl, ?_, ?_⟩
  · simp [List.lookup, pyShowOpt]
  · intro hne hcontra
    exact hne (by simpa using hcontra)

/-- Witness for C7 (amended) at a concrete successful login. -/
theorem login_auth_token_from_exchange_witness :
    List.lookup "Authorization"
        (backupListRequest ⟨"example.com", true, "ua0"⟩
          (login TokenState.initial
            ⟨200, "AuthSuccess", "Bearer", "tokA", "refA"⟩
            ⟨200, "tok2"⟩).state).headers =
      some ("Bearer " ++ "tok2") :=
  (login_auth_token_from_exchange ⟨"example.com", true, "ua0"⟩
    TokenState.initial ⟨200, "AuthSuccess", "Bearer", "tokA", "refA"⟩
    ⟨200, "tok2"⟩ rfl rfl rfl).2.2.2.1

/-- C2 counterexample: the exchange call's HTTP status is never checked (a
500 exchange response still sets auth_token from its body), and an
authenticated call made while auth_token is unset does not fail with an
auth error: the delete request is issued carrying the literal credential
"Bearer None" and a 204 response makes the call succeed. -/
theorem auth_token_invariant_counterexample :
    (login TokenState.initial ⟨200, "AuthSuccess", "Bearer", "tokA", "refA"⟩
        ⟨500, "tok2"⟩).state.auth_token = some "tok2" ∧
    List.lookup "Authorization"
        (backupDeleteRequest ⟨"example.com", true, "ua0"⟩ TokenState.initial
          "f.zip").headers = some "Bearer None" ∧
    (backup_delete TokenState.initial 204).2 = Except.ok () :=
  ⟨rfl, rfl, rfl⟩

/-- C2 (amended): starting from the initial state, auth_token is non-None
only after the three primary-login checks pass, and it is then taken from
the exchange response body with no check of the exchange HTTP status; an
authenticated call made while auth_token is unset is still issued, with
Authorization header "Bearer None", rather than failing client-side. -/
theorem auth_token_state_invariant (cfg : Config) (primary : LoginResponse)
    (secondary : TokenResponse) (f : String) :
    ((login TokenState.initial primary secondary).state.auth_token ≠ none →
      primary.statusCode = 200 ∧ primary.Status = "AuthSuccess" ∧
        primary.token_type = "Bearer" ∧
        (login TokenState.initial primary secondary).state.auth_token =
          some secondary.access_token) ∧
    List.lookup "Authorization"
        (backupDeleteRequest cfg TokenState.initial f).headers =
      some "Bearer None" ∧
    (backup_delete TokenState.initial 204).2 = Except.ok () := by
  refine ⟨?_, ?_, rfl⟩
  · intro hset
    unfold login at hset ⊢
    by_cases h1 : primary.statusCode = 200 <;>
      by_cases h2 : primary.Status = "AuthSuccess" <;>
        by_cases h3 : primary.token_type = "Bearer" <;>
          simp [h1, h2, h3, TokenState.initial] at hset ⊢
  · unfold backupDeleteRequest build_headers
    simp [List.lookup, pyShowOpt, TokenState.initial]

/-- Witness for C2 (amended) at a concrete client and login run. -/
theorem auth_token_state_invariant_witness :
    List.lookup "Authorization"
        (backupDeleteRequest ⟨"example.com", true, "ua0"⟩ TokenState.initial
          "g.zip").headers = some "Bearer None" :=
  (auth_token_state_invariant ⟨"example.com", true, "ua0"⟩
    ⟨200, "AuthSuccess", "Bearer", "tokA", "refA"⟩ ⟨200, "tok2"⟩ "g.zip").2.1

/-- C8 counterexample: the download request supplies no client headers at
all, so it carries neither Accept: application/json nor the instance
User-Agent nor an Authorization header. -/
theorem request_headers_counterexample :
    (backupDownloadRequest ⟨"example.com", true, "ua0"⟩ "/dl").headers = [] ∧
    List.lookup "Accept"
      (backupDownloadRequest ⟨"example.com", true, "ua0"⟩ "/dl").headers = none ∧
    List.lookup "User-Agent"
      (backupDownloadRequest ⟨"example.com", true, "ua0"⟩ "/dl").headers = none ∧
    List.lookup "Authorization"
      (backupDownloadRequest ⟨"example.com", true, "ua0"⟩ "/dl").headers = none :=
  ⟨rfl, rfl, rfl, rfl⟩

/-- C8 (amended): every request except download carries Accept:
application/json and the per-instance User-Agent; the list, trigger and
delete requests additionally carry Authorization: Bearer with the stored
auth token; the two login calls omit Authorization; the download request
supplies no client headers. -/
theorem request_headers_spec (cfg : Config) (st : TokenState) (t : String)
    (f dl : String) (h : st.auth_token = some t) :
    (loginRequest cfg st).headers =
      [("Accept", "application/json"), ("User-Agent", cfg.userAgent)] ∧
    (tokenExchangeRequest cfg st).headers =
      [("Accept", "application/json"), ("User-Agent", cfg.userAgent)] ∧
    (backupListRequest cfg st).headers =
      [("Accept", "application/json"), ("User-Agent", cfg.userAgent),
        ("Authorization", "Bearer " ++ t)] ∧
    (backupStartRequest cfg st).headers =
      [("Accept", "application/json"), ("User-Agent", cfg.userAgent),
        ("Authorization", "Bearer " ++ t)] ∧
    (backupDeleteRequest cfg st f).headers =
      [("Accept", "application/json"), ("User-Agent", cfg.userAgent),
        ("Authorization", "Bearer " ++ t)] ∧
    (backupDownloadRequest cfg dl).headers = [] := by
  unfold loginRequest tokenExchangeRequest backupListRequest
    backupStartRequest backupDeleteRequest backupDownloadRequest build_headers
  simp [h, pyShowOpt]

/-- Witness for C8 (amended) at a concrete client with a set token. -/
theorem request_headers_spec_witness :
    (backupListRequest ⟨"example.com", true, "ua0"⟩
        ⟨some "a", some "r", some "tok2"⟩).headers =
      [("Accept", "application/json"), ("User-Agent", "ua0"),
        ("Authorization", "Bearer " ++ "tok2")] :=
  (request_headers_spec ⟨"example.com", true, "ua0"⟩
    ⟨some "a", some "r", some "tok2"⟩ "tok2" "f.zip" "/dl" rfl).2.2.1

/-- C10 counterexample: the domain " " is a non-empty string, yet
normalization strips it to the empty string and then indexes its last
character, an IndexError; so non-emptiness of the supplied domain does not
make construction total. -/
theorem normalize_domain_blank_counterexample :
    (" " : String) ≠ "" ∧ normalizeDomain " " = none := by
  exact ⟨by decide, rfl⟩

/-- C10 (amended): domain normalization and URL building index the last and
first character without an emptiness guard, failing on an empty (after
whitespace stripping) domain and on an empty relative path; they are total
for every domain that is non-empty after stripping and every non-empty
relative path. -/
theorem normalize_build_url_partiality (cfg : Config) (d p : String)
    (hd : pyStrip d ≠ "") (hp : p ≠ "") :
    normalizeDomain "" = none ∧
    build_url cfg "" = none ∧
    (normalizeDomain d).isSome = true ∧
    (build_url cfg p).isSome = true := by
  refine ⟨rfl, rfl, ?_, ?_⟩
  · have hdata : (pyStrip d).data ≠ [] := by
      intro hnil
      exact hd (String.ext (by simp [hnil]))
    unfold normalizeDomain
    match hlast : (pyStrip d).data.getLast? with
    | none => exact absurd (List.getLast?_eq_none_iff.mp hlast) hdata
    | some c => simp [hlast]
  · have hdata : p.data ≠ [] := by
      intro hnil
      exact hp (String.ext (by simp [hnil]))
    unfold build_url
    match hl : p.data with
    | [] => exact absurd hl hdata
    | a :: t => simp

/-- Witness for C10 (amended) at a concrete domain and path. -/
theorem normalize_build_url_partiality_witness :
    normalizeDomain "" = none ∧
    build_url ⟨"example.com", true, "ua0"⟩ "" = none ∧
    (normalizeDomain "example.com").isSome = true ∧
    (build_url ⟨"example.com", true, "ua0"⟩ "foo").isSome = true :=
  normalize_build_url_partiality ⟨"example.com", true, "ua0"⟩ "example.com"
    "foo" (by decide) (by decide)

end Cxgui
